import Mathlib

/-!
Shallow embedding of the OS2MO frontend modules that the verified properties
concern: the `Validate` HTTP client (`src/unnamed/part_004`, script part),
the `Employee` resource client (`src/src/api/Employee.js`), the two
validation rule adapters (`src/unnamed/part_002`, `src/unnamed/part_003`),
and the tree-picker component state (`src/unnamed/part_004`, template part).

JavaScript values are modelled by the inductive `JSValue`; property access on
`null`/`undefined` and `Object.keys` on `null`/`undefined` throw a
`TypeError`, modelled by `Except String`.  A promise outcome is either
`resolved` or `rejected`.  Each resource-client operation is a function of
its arguments and of the outcome of the single underlying HTTP call
(`HttpOutcome`); it returns the ordered list of events emitted on the event
bus together with the final promise result.  `console.log` is an output-only
side effect and is dropped.
-/

set_option autoImplicit false

/-- JavaScript values, as far as the embedded modules inspect them. -/
inductive JSValue where
  | undefined
  | null
  | bool (b : Bool)
  | num (n : Int)
  | str (s : String)
  | arr (elems : List JSValue)
  | obj (fields : List (String × JSValue))

namespace JSValue

/-- JavaScript truthiness: `undefined`, `null`, `false`, `0`, `""` are falsy;
every object and array is truthy. -/
def truthy : JSValue → Bool
  | .undefined => false
  | .null => false
  | .bool b => b
  | .num n => !(n == 0)
  | .str s => !(s == "")
  | .arr _ => true
  | .obj _ => true

/-- Property access `v.f`.  On `null`/`undefined` it throws a `TypeError`;
on an object it yields the field value, or `undefined` when the field is
missing; on any other value it yields `undefined` (primitive boxing). -/
def getField : JSValue → String → Except String JSValue
  | .undefined, _ => .error "TypeError"
  | .null, _ => .error "TypeError"
  | .obj fs, f => .ok ((fs.lookup f).getD .undefined)
  | _, _ => .ok .undefined

/-- Index access `v[i]`.  On `null`/`undefined` it throws a `TypeError`;
on an array it yields the element, or `undefined` out of bounds; on any
other value it yields `undefined`. -/
def jsIndex : JSValue → Nat → Except String JSValue
  | .undefined, _ => .error "TypeError"
  | .null, _ => .error "TypeError"
  | .arr xs, i => .ok (xs.getD i .undefined)
  | _, _ => .ok .undefined

end JSValue

/-- `Object.keys(v)`: throws a `TypeError` on `null`/`undefined`, yields the
own enumerable keys of an object, the index strings of an array or string,
and `[]` for other primitives. -/
def jsObjectKeys : JSValue → Except String (List String)
  | .undefined => .error "TypeError"
  | .null => .error "TypeError"
  | .obj fs => .ok (fs.map Prod.fst)
  | .arr xs => .ok ((List.range xs.length).map toString)
  | .str s => .ok ((List.range s.length).map toString)
  | _ => .ok []

/-- Outcome of the single HTTP round trip an operation performs: `success`
carries the parsed response body (`response.data`), `failure` the rejection
value handed to the error handler. -/
inductive HttpOutcome where
  | success (data : JSValue)
  | failure (err : JSValue)

/-- Final state of the promise an operation returns. -/
inductive PromiseResult where
  | resolved (v : JSValue)
  | rejected (e : JSValue)

namespace Validate

/-- `createErrorPayload` from the Validate HTTP module: builds
`{valid: false, data: err.response.data.error_key}`; the chained property
accesses throw when the rejection value lacks the expected structure. -/
def createErrorPayload (err : JSValue) : Except String JSValue := do
  let resp ← err.getField "response"
  let data ← resp.getField "data"
  let key ← data.getField "error_key"
  pure (JSValue.obj [("valid", JSValue.bool false), ("data", key)])

/-- The bare error-key extraction `err.response.data.error_key`. -/
def errorKeyOf (err : JSValue) : Except String JSValue := do
  let resp ← err.getField "response"
  let data ← resp.getField "data"
  data.getField "error_key"

/-- The uniform invalid-result shape `{valid: false, data: k}`. -/
def invalidPayload (k : JSValue) : JSValue :=
  JSValue.obj [("valid", JSValue.bool false), ("data", k)]

/-- `Validate.cpr(cpr, org)`: builds the payload (indexing `org[0]`, which
can itself throw), posts it, and maps the two-handler `then`: success to
`true`, rejection through `createErrorPayload`; a throw inside the rejection
handler rejects the returned promise. -/
def cpr (cprNo org : JSValue) (outcome : HttpOutcome) :
    Except String PromiseResult := do
  let orgUuid ← org.jsIndex 0
  let _payload := JSValue.obj
    [("cpr_no", cprNo), ("org", JSValue.obj [("uuid", orgUuid)])]
  pure (match outcome with
    | .success _ => .resolved (.bool true)
    | .failure err =>
      match createErrorPayload err with
      | .ok v => .resolved v
      | .error e => .rejected (.str e))

/-- `Validate.orgUnit(orgUnit, validity)`: same two-handler `then` as
`cpr`; the payload construction cannot throw. -/
def orgUnit (ou validity : JSValue) (outcome : HttpOutcome) : PromiseResult :=
  let _payload := JSValue.obj
    [("org_unit", JSValue.obj [("uuid", ou)]), ("validity", validity)]
  match outcome with
  | .success _ => .resolved (.bool true)
  | .failure err =>
    match createErrorPayload err with
    | .ok v => .resolved v
    | .error e => .rejected (.str e)

end Validate

example :
    Validate.cpr (.str "c") (.arr [.str "o1"]) (.success (.obj [])) =
      Except.ok (.resolved (.bool true)) := rfl

example :
    Validate.cpr (.str "c") (.arr [.str "o1"])
        (.failure (.obj [("response",
          .obj [("data", .obj [("error_key", .str "V_NO_PERSON")])])])) =
      Except.ok (.resolved (Validate.invalidPayload (.str "V_NO_PERSON"))) := rfl

example :
    Validate.orgUnit (.str "u") .undefined (.failure (.obj [])) =
      .rejected (.str "TypeError") := rfl

/-- What one resource-client call produces: the events emitted on the event
bus, in emission order, and the final state of the returned promise. -/
structure OpOutput where
  events : List (String × JSValue)
  result : PromiseResult

namespace Employee

/-- `Employee.getAll(orgUuid)`: resolves to `response.data.items`; a throw in
the success handler or an HTTP failure is caught, logged and resolved to
`undefined`. -/
def getAll (orgUuid : String) (o : HttpOutcome) : OpOutput :=
  let _url := "/o/" ++ orgUuid ++ "/e/"
  match o with
  | .success data =>
    match data.getField "items" with
    | .ok items => ⟨[], .resolved items⟩
    | .error _ => ⟨[], .resolved .undefined⟩
  | .failure _ => ⟨[], .resolved .undefined⟩

/-- `Employee.get(uuid)`: emits `organisation-changed` with payload
`response.data.org` and resolves to `response.data`; failures are caught,
logged and resolved to `undefined`. -/
def get (uuid : String) (o : HttpOutcome) : OpOutput :=
  let _url := "/e/" ++ uuid ++ "/"
  match o with
  | .success data =>
    match data.getField "org" with
    | .ok org => ⟨[("organisation-changed", org)], .resolved data⟩
    | .error _ => ⟨[], .resolved .undefined⟩
  | .failure _ => ⟨[], .resolved .undefined⟩

/-- `Employee.history(uuid)`: resolves to `response.data`; there is no
`catch` handler, so an HTTP failure leaves the promise rejected. -/
def history (uuid : String) (o : HttpOutcome) : OpOutput :=
  let _url := "/e/" ++ uuid ++ "/history/"
  match o with
  | .success data => ⟨[], .resolved data⟩
  | .failure err => ⟨[], .rejected err⟩

/-- `Employee.getDetail(uuid, detail, validity)`: defaults `validity` to
`'present'` (only used in the request URL), resolves to `response.data`;
failures are caught, logged and resolved to `undefined`. -/
def getDetail (uuid detail : String) (validity : JSValue) (o : HttpOutcome) :
    OpOutput :=
  let _validity := if validity.truthy then validity else JSValue.str "present"
  match o with
  | .success data => ⟨[], .resolved data⟩
  | .failure _ => ⟨[], .resolved .undefined⟩

/-- `Employee.getDetailList(uuid)`: resolves to `response.data`; failures
are caught, logged and resolved to `undefined`. -/
def getDetailList (uuid : String) (o : HttpOutcome) : OpOutput :=
  let _url := "e/" ++ uuid ++ "/details/"
  match o with
  | .success data => ⟨[], .resolved data⟩
  | .failure _ => ⟨[], .resolved .undefined⟩

/-- `Employee.createEntry(uuid, create)`: on success emits
`employee-changed` with `response.data` and resolves to `response.data`;
failures are caught, logged and resolved to `undefined`. -/
def createEntry (uuid : String) (createArg : JSValue) (o : HttpOutcome) :
    OpOutput :=
  let _url := "/e/" ++ uuid ++ "/create"
  match o with
  | .success data => ⟨[("employee-changed", data)], .resolved data⟩
  | .failure _ => ⟨[], .resolved .undefined⟩

/-- Chains a `then` handler that emits one event carrying the resolved
value and returns nothing, as the `create`/`leave`/`move` wrappers do:
a resolved inner promise leads to the extra event and a promise resolved to
`undefined`; a rejected inner promise skips the handler. -/
def emitAfter (name : String) (inner : OpOutput) : OpOutput :=
  match inner.result with
  | .resolved v => ⟨inner.events ++ [(name, v)], .resolved .undefined⟩
  | .rejected e => ⟨inner.events, .rejected e⟩

/-- `Employee.create(uuid, create)`: `createEntry` then emit
`employee-create` with the resolved value. -/
def create (uuid : String) (createArg : JSValue) (o : HttpOutcome) :
    OpOutput :=
  emitAfter "employee-create" (createEntry uuid createArg o)

/-- `Employee.leave(uuid, leave)`: `createEntry` then emit
`employee-leave` with the resolved value. -/
def leave (uuid : String) (leaveArg : JSValue) (o : HttpOutcome) : OpOutput :=
  emitAfter "employee-leave" (createEntry uuid leaveArg o)

/-- `Employee.edit(uuid, edit)`: on success emits `employee-changed` with
`response.data` and resolves to `response.data`; failures are caught,
logged and resolved to `undefined`. -/
def edit (uuid : String) (editArg : JSValue) (o : HttpOutcome) : OpOutput :=
  let _url := "/e/" ++ uuid ++ "/edit"
  match o with
  | .success data => ⟨[("employee-changed", data)], .resolved data⟩
  | .failure _ => ⟨[], .resolved .undefined⟩

/-- `Employee.move(uuid, move)`: `edit` then emit `employee-move` with the
resolved value. -/
def move (uuid : String) (moveArg : JSValue) (o : HttpOutcome) : OpOutput :=
  emitAfter "employee-move" (edit uuid moveArg o)

/-- `Employee.terminate(uuid, end)`: on success emits `employee-changed`
then `employee-terminate`, both with `response.data`, and resolves to
`response.data`; failures are caught, logged and resolved to `undefined`. -/
def terminate (uuid : String) (endArg : JSValue) (o : HttpOutcome) :
    OpOutput :=
  let _url := "/e/" ++ uuid ++ "/terminate"
  match o with
  | .success data =>
    ⟨[("employee-changed", data), ("employee-terminate", data)],
      .resolved data⟩
  | .failure _ => ⟨[], .resolved .undefined⟩

end Employee

/-- The operation-specific event names published by the wrapper
operations. -/
def specificNames : List String :=
  ["employee-create", "employee-leave", "employee-move", "employee-terminate"]

/-- Exactly one `employee-changed` event occurs, and it occurs before every
operation-specific event in the list. -/
def genericBeforeSpecific (evs : List (String × JSValue)) : Bool :=
  ((evs.filter fun e => e.1 == "employee-changed").length == 1) &&
    ((List.range evs.length).all fun j =>
      !(specificNames.contains (evs.getD j ("", JSValue.undefined)).1) ||
        decide ((evs.findIdx fun e => e.1 == "employee-changed") < j))

example (d : JSValue) :
    genericBeforeSpecific (Employee.terminate "u" .null (.success d)).events
      = true := rfl

example (d : JSValue) :
    genericBeforeSpecific (Employee.create "u" .null (.success d)).events
      = true := rfl

/-- Result of a validation rule adapter's `validate`: either a value
returned directly, or delegation to a `Validate` client function that is
outside the provided sources (recorded by name and argument list). -/
inductive AdapterResult where
  | ret (v : JSValue)
  | call (fn : String) (args : List JSValue)

namespace AssociationRule

/-- The association rule adapter's `validate(value, args)`
(`src/unnamed/part_002`): destructures `args` as
`[employee, orgUnit, validity, associationUuid]` and evaluates the guard
`!validity || !validity.from || Object.keys(employee).length === 0 ||
!employee` with JavaScript left-to-right short-circuiting, so
`Object.keys(employee)` is evaluated (and can throw) before the
`!employee` check; otherwise it delegates to
`Validate.existingAssociations`. -/
def validate (value : JSValue) (args : List JSValue) :
    Except String AdapterResult := do
  let employee := args.getD 0 .undefined
  let orgUnit := args.getD 1 .undefined
  let validity := args.getD 2 .undefined
  let associationUuid := args.getD 3 .undefined
  let _value := value
  if !validity.truthy then
    return .ret (.bool true)
  let fromVal ← validity.getField "from"
  if !fromVal.truthy then
    return .ret (.bool true)
  let keys ← jsObjectKeys employee
  if keys.length == 0 then
    return .ret (.bool true)
  if !employee.truthy then
    return .ret (.bool true)
  return .call "existingAssociations" [orgUnit, employee, validity, associationUuid]

end AssociationRule

namespace CandidateParentRule

/-- The candidate parent org-unit rule adapter's `validate(value, args)`
(`src/unnamed/part_003`): destructures `args` as
`[orgUnit, parent, validity]`, returns `true` when `!validity ||
!validity.from`, and otherwise delegates to
`Validate.candidateParentOrgUnit`. -/
def validate (value : JSValue) (args : List JSValue) :
    Except String AdapterResult := do
  let orgUnit := args.getD 0 .undefined
  let parent := args.getD 1 .undefined
  let validity := args.getD 2 .undefined
  let _value := value
  if !validity.truthy then
    return .ret (.bool true)
  let fromVal ← validity.getField "from"
  if !fromVal.truthy then
    return .ret (.bool true)
  return .call "candidateParentOrgUnit" [orgUnit, parent, validity]

end CandidateParentRule

/-- The association rule adapter's `getMessage(value, args, data)`: returns
`data` unchanged. -/
def getMessage (value : JSValue) (args : List JSValue) (data : JSValue) :
    JSValue :=
  let _ := (value, args)
  data

/-- The local reactive state of the `MoOrganisationUnitPicker` component:
the `data ()` fields `selectedSuperUnit`, `showTree` and `orgName`. -/
structure PickerState where
  selectedSuperUnit : JSValue
  showTree : Bool
  orgName : JSValue

/-- The component's `toggleTree()` method: `this.showTree = !this.showTree`,
leaving every other field untouched. -/
def toggleTree (s : PickerState) : PickerState :=
  { s with showTree := !s.showTree }

/-- The `selectedSuperUnit` watcher, run when a node is selected: sets
`orgName` to the node's `name`, emits the value, and collapses the tree
(validation and blur are UI effects outside the state).  Modelled for
completeness of the component's state machine; `getField` on the new value
can throw when it is `null`/`undefined`. -/
def selectNode (s : PickerState) (newVal : JSValue) :
    Except String PickerState := do
  let name ← newVal.getField "name"
  pure { s with selectedSuperUnit := newVal, orgName := name, showTree := false }

example :
    AssociationRule.validate .undefined
        [.null, .undefined, .obj [("from", .str "2020-01-01")], .undefined] =
      .error "TypeError" := rfl

example :
    CandidateParentRule.validate .undefined [.null, .null, .obj [("to", .null)]] =
      Except.ok (.ret (.bool true)) := rfl

/-- Reduction of the `Except` monad's `pure`. -/
theorem except_pure {ε α : Type} (a : α) :
    (pure a : Except ε α) = Except.ok a := rfl

/-- Reduction of the `Except` monad's bind on an `ok` value. -/
theorem except_bind_ok {ε α β : Type} (a : α) (f : α → Except ε β) :
    (Except.ok a >>= f) = f a := rfl

/-- Reduction of the `Except` monad's bind on an `error` value. -/
theorem except_bind_error {ε α β : Type} (e : ε) (f : α → Except ε β) :
    ((Except.error e : Except ε α) >>= f) = Except.error e := rfl

/-- When the bare error-key extraction succeeds, `createErrorPayload`
produces the uniform invalid shape around the extracted key. -/
theorem createErrorPayload_of_errorKey (err k : JSValue)
    (h : Validate.errorKeyOf err = Except.ok k) :
    Validate.createErrorPayload err = Except.ok (Validate.invalidPayload k) := by
  unfold Validate.errorKeyOf at h
  unfold Validate.createErrorPayload Validate.invalidPayload
  cases hr : err.getField "response" with
  | error e => simp [hr, except_bind_error] at h
  | ok resp =>
    cases hd : resp.getField "data" with
    | error e => simp [hr, hd, except_bind_ok, except_bind_error] at h
    | ok data =>
      simp only [hr, hd, except_bind_ok] at h ⊢
      simp [h]

/-- C1: `Validate.cpr` and `Validate.orgUnit` resolve to `true` when the
HTTP call succeeds, and to `{valid: false, data: k}` when it fails with a
rejection whose body carries `error_key = k`; under those two conditions the
result is always one of these two shapes. -/
theorem validate_result_shape (c org ou v u : JSValue) (o : HttpOutcome)
    (hidx : org.jsIndex 0 = Except.ok u) :
    (∀ d, o = HttpOutcome.success d →
      Validate.cpr c org o =
        Except.ok (PromiseResult.resolved (JSValue.bool true)) ∧
      Validate.orgUnit ou v o =
        PromiseResult.resolved (JSValue.bool true)) ∧
    (∀ err k, o = HttpOutcome.failure err →
      Validate.errorKeyOf err = Except.ok k →
      Validate.cpr c org o =
        Except.ok (PromiseResult.resolved (Validate.invalidPayload k)) ∧
      Validate.orgUnit ou v o =
        PromiseResult.resolved (Validate.invalidPayload k)) := by
  constructor
  · rintro d rfl
    constructor
    · simp [Validate.cpr, hidx, Except.bind]
    · rfl
  · rintro err k rfl hk
    have hp := createErrorPayload_of_errorKey err k hk
    constructor
    · simp [Validate.cpr, hidx, hp, Except.bind]
    · simp [Validate.orgUnit, hp]

/-- C1 witness: both shapes at concrete inputs. -/
theorem validate_result_shape_witness :
    Validate.cpr (.str "c") (.arr [.str "o1"]) (.success (.obj [])) =
      Except.ok (.resolved (.bool true)) ∧
    Validate.cpr (.str "c") (.arr [.str "o1"])
        (.failure (.obj [("response", .obj [("data",
          .obj [("error_key", .str "V_NO_PERSON")])])])) =
      Except.ok (.resolved (Validate.invalidPayload (.str "V_NO_PERSON"))) := by
  constructor
  · exact ((validate_result_shape (.str "c") (.arr [.str "o1"]) .undefined .undefined
      (.str "o1") (.success (.obj [])) rfl).1 (.obj []) rfl).1
  · exact ((validate_result_shape (.str "c") (.arr [.str "o1"]) .undefined .undefined
      (.str "o1")
      (.failure (.obj [("response", .obj [("data",
        .obj [("error_key", .str "V_NO_PERSON")])])])) rfl).2
      (.obj [("response", .obj [("data",
        .obj [("error_key", .str "V_NO_PERSON")])])])
      (.str "V_NO_PERSON") rfl rfl).1

/-- C7: when the rejection value does not let `err.response.data.error_key`
be extracted, `createErrorPayload` itself throws, so the promise returned by
`Validate.cpr`/`Validate.orgUnit` is rejected rather than resolved to a
`{valid: false, data: _}` result. -/
theorem validate_rejects_on_malformed_error (c org ou v u err : JSValue)
    (e : String)
    (hidx : org.jsIndex 0 = Except.ok u)
    (h : Validate.createErrorPayload err = Except.error e) :
    Validate.cpr c org (.failure err) =
      Except.ok (PromiseResult.rejected (JSValue.str e)) ∧
    Validate.orgUnit ou v (.failure err) =
      PromiseResult.rejected (JSValue.str e) := by
  constructor
  · simp [Validate.cpr, hidx, h, Except.bind]
  · simp [Validate.orgUnit, h]

/-- C7 witness: a rejection with no `response` field makes both calls
reject with a `TypeError`. -/
theorem validate_rejects_on_malformed_error_witness :
    Validate.cpr (.str "c") (.arr [.str "o1"]) (.failure (.obj [])) =
      Except.ok (PromiseResult.rejected (JSValue.str "TypeError")) ∧
    Validate.orgUnit (.str "u") .undefined (.failure (.obj [])) =
      PromiseResult.rejected (JSValue.str "TypeError") :=
  validate_rejects_on_malformed_error (.str "c") (.arr [.str "o1"]) (.str "u")
    .undefined (.str "o1") (.obj []) "TypeError" rfl rfl

/-- C2: both validation rule adapters return `true` whenever the validity
argument is absent (`undefined`/`null`) or lacks a `from` field, whatever
the other arguments are. -/
theorem adapters_true_without_from
    (value employee orgUnit parent assocUuid validity : JSValue)
    (h : validity = JSValue.undefined ∨ validity = JSValue.null ∨
      validity.getField "from" = Except.ok JSValue.undefined) :
    AssociationRule.validate value [employee, orgUnit, validity, assocUuid] =
      Except.ok (AdapterResult.ret (JSValue.bool true)) ∧
    CandidateParentRule.validate value [orgUnit, parent, validity] =
      Except.ok (AdapterResult.ret (JSValue.bool true)) := by
  rcases h with rfl | rfl | h3
  · exact ⟨rfl, rfl⟩
  · exact ⟨rfl, rfl⟩
  · cases hb : validity.truthy with
    | false =>
      constructor <;>
        simp [AssociationRule.validate, CandidateParentRule.validate, hb,
          List.getD, except_pure]
    | true =>
      constructor <;>
        simp [AssociationRule.validate, CandidateParentRule.validate, hb, h3,
          List.getD, except_bind_ok, except_pure, JSValue.truthy]

/-- C2 witness: validity object lacking `from`, employee `null`. -/
theorem adapters_true_without_from_witness :
    AssociationRule.validate .undefined
        [.null, .undefined, .obj [("to", .str "2020")], .undefined] =
      Except.ok (AdapterResult.ret (JSValue.bool true)) ∧
    CandidateParentRule.validate .undefined
        [.undefined, .null, .obj [("to", .str "2020")]] =
      Except.ok (AdapterResult.ret (JSValue.bool true)) :=
  adapters_true_without_from .undefined .null .undefined .null .undefined
    (.obj [("to", .str "2020")]) (Or.inr (Or.inr rfl))

/-- C9: with a validity carrying a non-empty `from` and a `null` employee,
the association adapter's `validate` throws a `TypeError`, because
`Object.keys(employee)` is evaluated before the `!employee` null check in
the guard. -/
theorem association_validate_throws_on_null_employee :
    AssociationRule.validate .undefined
        [.null, .undefined, .obj [("from", .str "2020-01-01")], .undefined] =
      Except.error "TypeError" := rfl

/-- C3: every successful mutating call publishes exactly one generic
`employee-changed` event, and that event precedes every operation-specific
event emitted by the same call. -/
theorem mutations_emit_generic_first (uuid : String) (payload d : JSValue) :
    genericBeforeSpecific
      (Employee.createEntry uuid payload (.success d)).events = true ∧
    genericBeforeSpecific
      (Employee.create uuid payload (.success d)).events = true ∧
    genericBeforeSpecific
      (Employee.leave uuid payload (.success d)).events = true ∧
    genericBeforeSpecific
      (Employee.edit uuid payload (.success d)).events = true ∧
    genericBeforeSpecific
      (Employee.move uuid payload (.success d)).events = true ∧
    genericBeforeSpecific
      (Employee.terminate uuid payload (.success d)).events = true :=
  ⟨rfl, rfl, rfl, rfl, rfl, rfl⟩

/-- C4 counterexample: on an HTTP failure, `Employee.create` still
publishes an event — the operation-specific `employee-create`, with
`undefined` payload — so the claim that a failed call publishes no change
event at all is false. -/
theorem create_failure_still_publishes :
    (Employee.create "u" JSValue.null (.failure JSValue.null)).events =
      [("employee-create", JSValue.undefined)] ∧
    (Employee.create "u" JSValue.null (.failure JSValue.null)).events ≠ [] :=
  ⟨rfl, fun h => List.noConfusion h⟩

/-- C4 amended: on HTTP failure, no generic `employee-changed` event is
published and `createEntry`/`edit`/`terminate` publish nothing; but the
wrappers `create`, `leave` and `move` each still publish their
operation-specific event with `undefined` payload, because the inner catch
handler resolves the failure to `undefined`. -/
theorem failure_publishes_only_wrapper_specific
    (uuid : String) (payload err : JSValue) :
    (Employee.createEntry uuid payload (.failure err)).events = [] ∧
    (Employee.edit uuid payload (.failure err)).events = [] ∧
    (Employee.terminate uuid payload (.failure err)).events = [] ∧
    (Employee.create uuid payload (.failure err)).events =
      [("employee-create", JSValue.undefined)] ∧
    (Employee.leave uuid payload (.failure err)).events =
      [("employee-leave", JSValue.undefined)] ∧
    (Employee.move uuid payload (.failure err)).events =
      [("employee-move", JSValue.undefined)] ∧
    ((Employee.create uuid payload (.failure err)).events.filter
      fun e => e.1 == "employee-changed") = [] ∧
    ((Employee.leave uuid payload (.failure err)).events.filter
      fun e => e.1 == "employee-changed") = [] ∧
    ((Employee.move uuid payload (.failure err)).events.filter
      fun e => e.1 == "employee-changed") = [] :=
  ⟨rfl, rfl, rfl, rfl, rfl, rfl, rfl, rfl, rfl⟩

/-- C5 counterexample: against the body `{org: {uuid:'org-1'}, name:'X'}`,
`Employee.get('uuid-1')` emits `organisation-changed` with payload the
object `{uuid:'org-1'}` — `response.data.org` — not the string `'org-1'`. -/
theorem get_emits_org_object_not_uuid :
    (Employee.get "uuid-1" (.success (JSValue.obj
        [("org", JSValue.obj [("uuid", JSValue.str "org-1")]),
         ("name", JSValue.str "X")]))).events ≠
      [("organisation-changed", JSValue.str "org-1")] := by
  intro h
  have h1 : (("organisation-changed", JSValue.obj
      [("uuid", JSValue.str "org-1")]) : String × JSValue) =
      ("organisation-changed", JSValue.str "org-1") :=
    (List.cons.injEq _ _ _ _ ▸ h).1
  exact JSValue.noConfusion (congrArg Prod.snd h1)

/-- C5 amended: against the body `{org: {uuid:'org-1'}, name:'X'}`,
`Employee.get('uuid-1')` emits exactly one `organisation-changed` event
whose payload is the org object `{uuid:'org-1'}`, and resolves to the full
response body. -/
theorem get_scenario :
    (Employee.get "uuid-1" (.success (JSValue.obj
        [("org", JSValue.obj [("uuid", JSValue.str "org-1")]),
         ("name", JSValue.str "X")]))).events =
      [("organisation-changed",
        JSValue.obj [("uuid", JSValue.str "org-1")])] ∧
    (Employee.get "uuid-1" (.success (JSValue.obj
        [("org", JSValue.obj [("uuid", JSValue.str "org-1")]),
         ("name", JSValue.str "X")]))).result =
      PromiseResult.resolved (JSValue.obj
        [("org", JSValue.obj [("uuid", JSValue.str "org-1")]),
         ("name", JSValue.str "X")]) :=
  ⟨rfl, rfl⟩

/-- C6 counterexample: `Employee.history` has no catch handler, so on an
HTTP failure its promise is rejected with the error instead of resolving to
`undefined`. -/
theorem history_rejects_on_failure :
    (Employee.history "uuid-1" (.failure (JSValue.str "boom"))).result =
      PromiseResult.rejected (JSValue.str "boom") ∧
    (Employee.history "uuid-1" (.failure (JSValue.str "boom"))).result ≠
      PromiseResult.resolved JSValue.undefined :=
  ⟨rfl, fun h => PromiseResult.noConfusion h⟩

/-- C6 amended: on HTTP failure, `getAll`, `get`, `getDetail`,
`getDetailList`, `createEntry`, `edit` and `terminate` log the error and
resolve to `undefined`; `history` is the exception — it has no catch
handler, so its promise rejects with the error. -/
theorem clients_absorb_failures_except_history
    (orgUuid uuid detail : String) (validity payload endArg err : JSValue) :
    (Employee.getAll orgUuid (.failure err)).result =
      PromiseResult.resolved JSValue.undefined ∧
    (Employee.get uuid (.failure err)).result =
      PromiseResult.resolved JSValue.undefined ∧
    (Employee.getDetail uuid detail validity (.failure err)).result =
      PromiseResult.resolved JSValue.undefined ∧
    (Employee.getDetailList uuid (.failure err)).result =
      PromiseResult.resolved JSValue.undefined ∧
    (Employee.createEntry uuid payload (.failure err)).result =
      PromiseResult.resolved JSValue.undefined ∧
    (Employee.edit uuid payload (.failure err)).result =
      PromiseResult.resolved JSValue.undefined ∧
    (Employee.terminate uuid endArg (.failure err)).result =
      PromiseResult.resolved JSValue.undefined ∧
    (Employee.history uuid (.failure err)).result =
      PromiseResult.rejected err :=
  ⟨rfl, rfl, rfl, rfl, rfl, rfl, rfl, rfl⟩

/-- C8 counterexample: starting from an expanded state (`showTree = true`)
with no intervening selection, applying `toggleTree` twice leaves the tree
expanded, not collapsed. -/
theorem toggle_twice_expanded_stays_expanded :
    (toggleTree (toggleTree
      { selectedSuperUnit := JSValue.null, showTree := true,
        orgName := JSValue.null })).showTree ≠ false := by
  decide

/-- C8 amended: with no new node selection, applying `toggleTree` twice
returns the component exactly to its state before the first toggle —
`selectedSuperUnit`, `orgName` and `showTree` all unchanged — so it is
collapsed afterwards precisely when it was collapsed before. -/
theorem toggleTree_involutive (s : PickerState) :
    toggleTree (toggleTree s) = s := by
  cases s
  simp [toggleTree]

/-- C10: the wrappers `create`, `leave` and `move` resolve to `undefined`
even when the underlying HTTP call succeeds, because the handler that
publishes the operation-specific event returns nothing; the response body
returned by `createEntry`/`edit` is never propagated. -/
theorem wrappers_resolve_undefined (uuid : String) (payload d : JSValue) :
    (Employee.create uuid payload (.success d)).result =
      PromiseResult.resolved JSValue.undefined ∧
    (Employee.leave uuid payload (.success d)).result =
      PromiseResult.resolved JSValue.undefined ∧
    (Employee.move uuid payload (.success d)).result =
      PromiseResult.resolved JSValue.undefined :=
  ⟨rfl, rfl, rfl⟩
